import Mathlib

/-!
Verification of the heap-snapshot diagnostic plugin (`snapshot_server.js`).

The program is a small Node.js module: a guarded `takeSnapshot` routine that
reads heap statistics, skips when usage exceeds a safe threshold, and otherwise
writes a timestamped heap-snapshot file; plus four triggers (a SIGUSR2 handler,
a periodic snapshot timer, a periodic usage report, and a one-shot startup
warning).

The embedding below renders `takeSnapshot` as a pure function from an
environment (the results of the external calls it makes: the heap-statistics
read, the clock, and the outcome of the snapshot write) to the ordered trace of
observable events it performs (log calls and the file-write attempt), paired
with the exception escaping the invocation, if any (`none` = returns normally).

JavaScript semantics notes reflected in the model:
  * `stats.used_heap_size / (1024 * 1024)` divides by a power of two; for
    realistic sizes (< 2^53 bytes) this is exact in IEEE doubles, so the
    megabyte value is modelled as an exact rational.
  * `x.toFixed(1)` on a nonnegative number renders round-half-up to one
    decimal digit (`toFixed1` below).
  * Only the `v8.writeHeapSnapshot` call sits inside the `try`; a failure of
    the heap read would propagate out of `takeSnapshot`.
  * The `catch` block evaluates `err.message`.  If the thrown value is `null`
    or `undefined` this property access itself throws a `TypeError`, which
    escapes `takeSnapshot`; if the thrown value is an object without a
    `message` property, the logged detail renders as `undefined`.
-/

namespace Snapshot

/-- `const SNAPSHOT_INTERVAL_HOURS = 6;` -/
def SNAPSHOT_INTERVAL_HOURS : Nat := 6

/-- `const SAFE_HEAP_THRESHOLD_MB = 250;` -/
def SAFE_HEAP_THRESHOLD_MB : Nat := 250

/-- A JavaScript value appearing as a thrown exception.  `obj m` is any value
on which property access succeeds, with `.message` equal to `m` (`none` models
a missing / `undefined` message); `nullish` is `null` or `undefined`, on which
any property access throws a `TypeError`. -/
inductive Thrown where
  | obj (message : Option String)
  | nullish
  deriving DecidableEq

/-- Observable events performed by the plugin, in program order:
log calls (through `logInfo` / `logWarn` / `logError` of the console module)
and file-write attempts (`v8.writeHeapSnapshot(filename)`).  `logError` carries
the optional second argument of the two-argument call sites. -/
inductive Event where
  | logInfo (msg : String)
  | logWarn (msg : String)
  | logError (msg : String) (detail : Option String)
  | writeAttempt (filename : String)
  deriving DecidableEq

/-- The external world of one `takeSnapshot` invocation: the result of
`v8.getHeapStatistics()` (its `used_heap_size` field, in bytes, or a thrown
value), the value `Date.now()` would return (Unix milliseconds), and the
outcome of `v8.writeHeapSnapshot` (normal return or a thrown value). -/
structure Env where
  heapRead : Except Thrown Nat
  now : Nat
  writeResult : Except Thrown Unit

/-- JavaScript `x.toFixed(1)` for a nonnegative number `x`: round half-up to
one decimal digit (ECMA-262: pick the integer `n` minimising `|n / 10 - x|`,
ties toward the larger `n`). -/
def toFixed1 (q : ℚ) : String :=
  let n : Nat := (Rat.floor (q * 10 + 1 / 2)).toNat
  Nat.repr (n / 10) ++ "." ++ Nat.repr (n % 10)

/-- `stats.used_heap_size / (1024 * 1024)` — exact in doubles for sizes
below 2^53 bytes. -/
def heapUsedMBOf (bytes : Nat) : ℚ := (bytes : ℚ) / (1024 * 1024)

/-- `` const filename = `${rootDir}/heap-${Date.now()}.heapsnapshot`; `` -/
def snapshotFilename (rootDir : String) (now : Nat) : String :=
  rootDir ++ "/heap-" ++ Nat.repr now ++ ".heapsnapshot"

/-- `function takeSnapshot() { ... }`, as a function from the environment to
the trace of events performed and the exception escaping the call (if any). -/
def takeSnapshot (rootDir : String) (env : Env) : List Event × Option Thrown :=
  match env.heapRead with
  | .error e => ([], some e)
  | .ok bytes =>
    let heapUsedMB : ℚ := heapUsedMBOf bytes
    let infoLine : Event :=
      .logInfo ("[SNAPSHOT] Current heap used: " ++ toFixed1 heapUsedMB ++ " MB")
    if heapUsedMB > (SAFE_HEAP_THRESHOLD_MB : ℚ) then
      ([infoLine,
        .logError ("Snapshot skipped: heap " ++ toFixed1 heapUsedMB ++ " MB > safe "
          ++ Nat.repr SAFE_HEAP_THRESHOLD_MB ++ " MB") none], none)
    else
      let filename := snapshotFilename rootDir env.now
      match env.writeResult with
      | .ok _ =>
        ([infoLine, .writeAttempt filename,
          .logInfo ("[SNAPSHOT] Snapshot written: " ++ filename ++ " (used "
            ++ toFixed1 heapUsedMB ++ " MB)")], none)
      | .error (.obj m) =>
        ([infoLine, .writeAttempt filename,
          .logError "[SNAPSHOT] Snapshot failed:" (some (m.getD "undefined"))], none)
      | .error .nullish =>
        ([infoLine, .writeAttempt filename],
         some (.obj (some "TypeError: cannot read properties of null or undefined")))

/-- The SIGUSR2 handler registered through `process.on`: it logs the
signal-received line, then calls `takeSnapshot` synchronously. -/
def sigusr2Handler (rootDir : String) (env : Env) : List Event × Option Thrown :=
  let r := takeSnapshot rootDir env
  (.logInfo "[SNAPSHOT] SIGUSR2 --> taking snapshot" :: r.1, r.2)

/-- The callback of the first `setInterval` (periodic snapshot attempt). -/
def periodicSnapshotTick (rootDir : String) (env : Env) : List Event × Option Thrown :=
  let r := takeSnapshot rootDir env
  (.logInfo "[SNAPSHOT] Periodic snapshot check" :: r.1, r.2)

/-- Interval of the periodic snapshot attempt:
`SNAPSHOT_INTERVAL_HOURS * 60 * 60 * 1000` milliseconds. -/
def SNAPSHOT_INTERVAL_MS : Nat := SNAPSHOT_INTERVAL_HOURS * 60 * 60 * 1000

/-- Interval of the periodic usage report: `1 * 60 * 60 * 1000` milliseconds,
a literal in the source, not derived from `SNAPSHOT_INTERVAL_HOURS`. -/
def USAGE_REPORT_INTERVAL_MS : Nat := 1 * 60 * 60 * 1000

/-- The callback of the second `setInterval` (usage report): reads
`process.memoryUsage().heapUsed` — here the parameter `heapUsedBytes` — and
logs it; it neither calls `takeSnapshot` nor writes any file. -/
def usageReportTick (heapUsedBytes : Nat) : List Event :=
  [.logInfo ("[SNAPSHOT] Heap used: "
    ++ toFixed1 ((heapUsedBytes : ℚ) / 1024 / 1024) ++ " MB")]

/-- The one-shot `setTimeout` callback (startup reminder). -/
def startupReminder : List Event :=
  [.logWarn "[SNAPSHOT] Snapshot is running - be sure to read all instructions in the file"]

/-- Delay of the startup reminder: `60 * 1000` milliseconds. -/
def STARTUP_REMINDER_DELAY_MS : Nat := 60 * 1000

/-! ### Trace observations -/

/-- Whether an event is a file-write attempt. -/
def isWriteEvent : Event → Bool
  | .writeAttempt _ => true
  | _ => false

/-- Whether an event is an error-severity log line. -/
def isErrorEvent : Event → Bool
  | .logError _ _ => true
  | _ => false

/-- Whether an event is an info-severity log line. -/
def isInfoEvent : Event → Bool
  | .logInfo _ => true
  | _ => false

/-- Number of file-write attempts in a trace. -/
def writeCount (t : List Event) : Nat := t.countP isWriteEvent

/-- Number of error log lines in a trace. -/
def errorCount (t : List Event) : Nat := t.countP isErrorEvent

/-- Number of info log lines in a trace. -/
def infoCount (t : List Event) : Nat := t.countP isInfoEvent

/-- `s` contains `pat` as a contiguous substring. -/
def strContains (s pat : String) : Prop := ∃ a b, s = a ++ pat ++ b

/-- Numeric value of a decimal digit character (inverse of `Nat.digitChar` on
digits below 10); used to state that decimal rendering loses no information. -/
def digitVal (c : Char) : Nat := c.toNat - 48

/-- Value of a list of decimal digit characters, most significant first. -/
def digitsVal (l : List Char) : Nat := l.foldl (fun a c => a * 10 + digitVal c) 0

/-! ### Concrete environments used to instantiate the theorems -/

/-- 300 MB used (above the 250 MB threshold); write would succeed. -/
def envAbove : Env :=
  { heapRead := Except.ok (300 * 1024 * 1024)
    now := 1700000000000
    writeResult := Except.ok () }

/-- 100 MB used (under threshold); write succeeds. -/
def envOk : Env :=
  { heapRead := Except.ok (100 * 1024 * 1024)
    now := 1700000000001
    writeResult := Except.ok () }

/-- Like `envOk` but at a later timestamp. -/
def envOk2 : Env :=
  { heapRead := Except.ok (100 * 1024 * 1024)
    now := 1700000000042
    writeResult := Except.ok () }

/-- 100 MB used; the write throws an Error whose message is ENOSPC. -/
def envEnospc : Env :=
  { heapRead := Except.ok (100 * 1024 * 1024)
    now := 1700000000002
    writeResult := Except.error (Thrown.obj (some "ENOSPC: no space left on device")) }

/-- 100 MB used; the write throws null (or undefined). -/
def envNullThrow : Env :=
  { heapRead := Except.ok (100 * 1024 * 1024)
    now := 1700000000003
    writeResult := Except.error Thrown.nullish }

/-- Like `envNullThrow`, at another timestamp. -/
def envNullThrow2 : Env :=
  { heapRead := Except.ok (100 * 1024 * 1024)
    now := 1700000000004
    writeResult := Except.error Thrown.nullish }

/-- The heap-statistics read itself throws. -/
def envReadErr : Env :=
  { heapRead := Except.error (Thrown.obj (some "heap statistics unavailable"))
    now := 1700000000005
    writeResult := Except.ok () }

/-- Like `envReadErr`, at another timestamp. -/
def envReadErr2 : Env :=
  { heapRead := Except.error (Thrown.obj (some "heap statistics unavailable"))
    now := 1700000000006
    writeResult := Except.ok () }

/-! ### Decimal rendering is injective

`snapshotFilename` embeds the timestamp through `Nat.repr`; these lemmas show
the rendering can be parsed back, hence distinct timestamps give distinct
filenames. -/

theorem digitVal_digitChar (d : Nat) (h : d < 10) :
    digitVal (Nat.digitChar d) = d := by
  interval_cases d <;> rfl

theorem digitsVal_append_singleton (xs : List Char) (c : Char) :
    digitsVal (xs ++ [c]) = digitsVal xs * 10 + digitVal c := by
  simp [digitsVal, List.foldl_append]

theorem toDigitsCore_append (fuel : Nat) :
    ∀ (n : Nat) (ds : List Char),
      Nat.toDigitsCore 10 fuel n ds = Nat.toDigitsCore 10 fuel n [] ++ ds := by
  induction fuel with
  | zero => intro n ds; simp [Nat.toDigitsCore]
  | succ f ih =>
    intro n ds
    simp only [Nat.toDigitsCore]
    by_cases h : n / 10 = 0
    · simp [h]
    · simp only [h, if_false]
      rw [ih (n / 10) (Nat.digitChar (n % 10) :: ds),
          ih (n / 10) [Nat.digitChar (n % 10)]]
      simp

theorem digitsVal_toDigitsCore (fuel : Nat) :
    ∀ n : Nat, n < 10 ^ fuel → digitsVal (Nat.toDigitsCore 10 fuel n []) = n := by
  induction fuel with
  | zero =>
    intro n h
    have hn : n = 0 := by simpa using h
    subst hn
    rfl
  | succ f ih =>
    intro n h
    by_cases h0 : n / 10 = 0
    · have hn : n < 10 := by omega
      have hlist : Nat.toDigitsCore 10 (f + 1) n [] = [Nat.digitChar (n % 10)] := by
        simp [Nat.toDigitsCore, h0]
      rw [hlist]
      have hval : digitsVal [Nat.digitChar (n % 10)] = digitVal (Nat.digitChar (n % 10)) := by
        simp [digitsVal]
      rw [hval, digitVal_digitChar _ (Nat.mod_lt n (by norm_num))]
      omega
    · have hstep : Nat.toDigitsCore 10 (f + 1) n [] =
          Nat.toDigitsCore 10 f (n / 10) [] ++ [Nat.digitChar (n % 10)] := by
        conv_lhs => simp only [Nat.toDigitsCore]
        rw [if_neg h0]
        exact toDigitsCore_append f (n / 10) [Nat.digitChar (n % 10)]
      have hdiv : n / 10 < 10 ^ f := by
        rw [Nat.div_lt_iff_lt_mul (by norm_num : 0 < 10)]
        rw [pow_succ] at h
        omega
      rw [hstep, digitsVal_append_singleton, ih (n / 10) hdiv,
          digitVal_digitChar _ (Nat.mod_lt n (by norm_num))]
      omega

theorem digitsVal_toDigits (n : Nat) : digitsVal (Nat.toDigits 10 n) = n := by
  have hlt : n < 10 ^ (n + 1) :=
    lt_of_lt_of_le (Nat.lt_pow_self (by norm_num) n)
      (Nat.pow_le_pow_right (by norm_num) (Nat.le_succ n))
  exact digitsVal_toDigitsCore (n + 1) n hlt

theorem natRepr_injective : Function.Injective Nat.repr := by
  intro m n h
  have hdata : Nat.toDigits 10 m = Nat.toDigits 10 n := by
    have hd := congrArg String.data h
    simpa [Nat.repr, List.asString] using hd
  calc m = digitsVal (Nat.toDigits 10 m) := (digitsVal_toDigits m).symm
    _ = digitsVal (Nat.toDigits 10 n) := by rw [hdata]
    _ = n := digitsVal_toDigits n

theorem snapshotFilename_inj (r : String) {t1 t2 : Nat}
    (h : snapshotFilename r t1 = snapshotFilename r t2) : t1 = t2 := by
  apply natRepr_injective
  have hd := congrArg String.data h
  simp only [snapshotFilename, String.data_append, List.append_assoc] at hd
  have h1 := List.append_cancel_left hd
  have h2 := List.append_cancel_left h1
  have h3 := List.append_cancel_right h2
  exact String.ext h3

/-! ### Shape of `takeSnapshot` on each path -/

theorem takeSnapshot_readErr (r : String) (env : Env) (e : Thrown)
    (hread : env.heapRead = Except.error e) :
    takeSnapshot r env = ([], some e) := by
  simp [takeSnapshot, hread]

theorem takeSnapshot_skip (r : String) (env : Env) (bytes : Nat)
    (hread : env.heapRead = Except.ok bytes)
    (hgt : heapUsedMBOf bytes > (SAFE_HEAP_THRESHOLD_MB : ℚ)) :
    takeSnapshot r env =
      ([.logInfo ("[SNAPSHOT] Current heap used: "
          ++ toFixed1 (heapUsedMBOf bytes) ++ " MB"),
        .logError ("Snapshot skipped: heap " ++ toFixed1 (heapUsedMBOf bytes)
          ++ " MB > safe " ++ Nat.repr SAFE_HEAP_THRESHOLD_MB ++ " MB") none],
       none) := by
  simp [takeSnapshot, hread, hgt]

theorem takeSnapshot_write_ok (r : String) (env : Env) (bytes : Nat)
    (hread : env.heapRead = Except.ok bytes)
    (hle : heapUsedMBOf bytes ≤ (SAFE_HEAP_THRESHOLD_MB : ℚ))
    (hw : env.writeResult = Except.ok ()) :
    takeSnapshot r env =
      ([.logInfo ("[SNAPSHOT] Current heap used: "
          ++ toFixed1 (heapUsedMBOf bytes) ++ " MB"),
        .writeAttempt (snapshotFilename r env.now),
        .logInfo ("[SNAPSHOT] Snapshot written: " ++ snapshotFilename r env.now
          ++ " (used " ++ toFixed1 (heapUsedMBOf bytes) ++ " MB)")],
       none) := by
  have hng : ¬ heapUsedMBOf bytes > (SAFE_HEAP_THRESHOLD_MB : ℚ) := not_lt.mpr hle
  simp [takeSnapshot, hread, hng, hw]

theorem takeSnapshot_write_err (r : String) (env : Env) (bytes : Nat)
    (m : Option String)
    (hread : env.heapRead = Except.ok bytes)
    (hle : heapUsedMBOf bytes ≤ (SAFE_HEAP_THRESHOLD_MB : ℚ))
    (hw : env.writeResult = Except.error (Thrown.obj m)) :
    takeSnapshot r env =
      ([.logInfo ("[SNAPSHOT] Current heap used: "
          ++ toFixed1 (heapUsedMBOf bytes) ++ " MB"),
        .writeAttempt (snapshotFilename r env.now),
        .logError "[SNAPSHOT] Snapshot failed:" (some (m.getD "undefined"))],
       none) := by
  have hng : ¬ heapUsedMBOf bytes > (SAFE_HEAP_THRESHOLD_MB : ℚ) := not_lt.mpr hle
  simp [takeSnapshot, hread, hng, hw]

theorem takeSnapshot_write_nullish (r : String) (env : Env) (bytes : Nat)
    (hread : env.heapRead = Except.ok bytes)
    (hle : heapUsedMBOf bytes ≤ (SAFE_HEAP_THRESHOLD_MB : ℚ))
    (hw : env.writeResult = Except.error Thrown.nullish) :
    takeSnapshot r env =
      ([.logInfo ("[SNAPSHOT] Current heap used: "
          ++ toFixed1 (heapUsedMBOf bytes) ++ " MB"),
        .writeAttempt (snapshotFilename r env.now)],
       some (.obj (some "TypeError: cannot read properties of null or undefined"))) := by
  have hng : ¬ heapUsedMBOf bytes > (SAFE_HEAP_THRESHOLD_MB : ℚ) := not_lt.mpr hle
  simp [takeSnapshot, hread, hng, hw]

/-- Any file-write attempt in a `takeSnapshot` trace targets the timestamped
filename constructed from the invocation clock. -/
theorem filename_of_writeAttempt {r : String} {env : Env} {f : String}
    (hmem : Event.writeAttempt f ∈ (takeSnapshot r env).1) :
    f = snapshotFilename r env.now := by
  cases hread : env.heapRead with
  | error e =>
    rw [takeSnapshot_readErr r env e hread] at hmem
    simp at hmem
  | ok bytes =>
    by_cases hgt : heapUsedMBOf bytes > (SAFE_HEAP_THRESHOLD_MB : ℚ)
    · rw [takeSnapshot_skip r env bytes hread hgt] at hmem
      simp at hmem
    · have hle := not_lt.mp hgt
      cases hwr : env.writeResult with
      | error t =>
        cases t with
        | obj m =>
          rw [takeSnapshot_write_err r env bytes m hread hle hwr] at hmem
          simpa using hmem
        | nullish =>
          rw [takeSnapshot_write_nullish r env bytes hread hle hwr] at hmem
          simpa using hmem
      | ok u =>
        cases u
        rw [takeSnapshot_write_ok r env bytes hread hle hwr] at hmem
        simpa using hmem

/-- The write-or-skip decision: a write attempt occurs exactly when the
megabyte reading does not exceed the threshold. -/
theorem writeCount_pos_iff (r : String) (env : Env) (bytes : Nat)
    (hread : env.heapRead = Except.ok bytes) :
    0 < writeCount (takeSnapshot r env).1 ↔
      ¬ heapUsedMBOf bytes > (SAFE_HEAP_THRESHOLD_MB : ℚ) := by
  by_cases hgt : heapUsedMBOf bytes > (SAFE_HEAP_THRESHOLD_MB : ℚ)
  · rw [takeSnapshot_skip r env bytes hread hgt]
    simp [writeCount, isWriteEvent, hgt]
  · have hle := not_lt.mp hgt
    cases hwr : env.writeResult with
    | error t =>
      cases t with
      | obj m =>
        rw [takeSnapshot_write_err r env bytes m hread hle hwr]
        simp [writeCount, isWriteEvent, hgt]
      | nullish =>
        rw [takeSnapshot_write_nullish r env bytes hread hle hwr]
        simp [writeCount, isWriteEvent, hgt]
    | ok u =>
      cases u
      rw [takeSnapshot_write_ok r env bytes hread hle hwr]
      simp [writeCount, isWriteEvent, hgt]

/-! ### The claims -/

/-- C1: whenever the heap-usage reading converted to megabytes strictly
exceeds `SAFE_HEAP_THRESHOLD_MB`, `takeSnapshot` attempts no file write, emits
exactly one error log line — containing both the measured usage value
(rendered by `toFixed1`) and the threshold value — and returns normally. -/
theorem claim_C1_threshold_skip (r : String) (env : Env) (bytes : Nat)
    (hread : env.heapRead = Except.ok bytes)
    (hgt : heapUsedMBOf bytes > (SAFE_HEAP_THRESHOLD_MB : ℚ)) :
    takeSnapshot r env =
      ([Event.logInfo ("[SNAPSHOT] Current heap used: "
          ++ toFixed1 (heapUsedMBOf bytes) ++ " MB"),
        Event.logError ("Snapshot skipped: heap " ++ toFixed1 (heapUsedMBOf bytes)
          ++ " MB > safe " ++ Nat.repr SAFE_HEAP_THRESHOLD_MB ++ " MB") none],
       none)
    ∧ writeCount (takeSnapshot r env).1 = 0
    ∧ errorCount (takeSnapshot r env).1 = 1
    ∧ strContains
        ("Snapshot skipped: heap " ++ toFixed1 (heapUsedMBOf bytes)
          ++ " MB > safe " ++ Nat.repr SAFE_HEAP_THRESHOLD_MB ++ " MB")
        (toFixed1 (heapUsedMBOf bytes))
    ∧ strContains
        ("Snapshot skipped: heap " ++ toFixed1 (heapUsedMBOf bytes)
          ++ " MB > safe " ++ Nat.repr SAFE_HEAP_THRESHOLD_MB ++ " MB")
        (Nat.repr SAFE_HEAP_THRESHOLD_MB) := by
  have hshape := takeSnapshot_skip r env bytes hread hgt
  refine ⟨hshape, ?_, ?_, ?_, ?_⟩
  · rw [hshape]; rfl
  · rw [hshape]; rfl
  · exact ⟨"Snapshot skipped: heap ",
      " MB > safe " ++ Nat.repr SAFE_HEAP_THRESHOLD_MB ++ " MB",
      by simp [String.append_assoc]⟩
  · exact ⟨"Snapshot skipped: heap " ++ toFixed1 (heapUsedMBOf bytes) ++ " MB > safe ",
      " MB",
      by simp [String.append_assoc]⟩

/-- C1 witness: 300 MB measured against the 250 MB threshold. -/
theorem claim_C1_threshold_skip_witness :
    envAbove.heapRead = Except.ok (300 * 1024 * 1024)
    ∧ heapUsedMBOf (300 * 1024 * 1024) > (SAFE_HEAP_THRESHOLD_MB : ℚ)
    ∧ (takeSnapshot "/app" envAbove =
        ([Event.logInfo ("[SNAPSHOT] Current heap used: "
            ++ toFixed1 (heapUsedMBOf (300 * 1024 * 1024)) ++ " MB"),
          Event.logError ("Snapshot skipped: heap "
            ++ toFixed1 (heapUsedMBOf (300 * 1024 * 1024))
            ++ " MB > safe " ++ Nat.repr SAFE_HEAP_THRESHOLD_MB ++ " MB") none],
         none)
      ∧ writeCount (takeSnapshot "/app" envAbove).1 = 0
      ∧ errorCount (takeSnapshot "/app" envAbove).1 = 1
      ∧ strContains
          ("Snapshot skipped: heap " ++ toFixed1 (heapUsedMBOf (300 * 1024 * 1024))
            ++ " MB > safe " ++ Nat.repr SAFE_HEAP_THRESHOLD_MB ++ " MB")
          (toFixed1 (heapUsedMBOf (300 * 1024 * 1024)))
      ∧ strContains
          ("Snapshot skipped: heap " ++ toFixed1 (heapUsedMBOf (300 * 1024 * 1024))
            ++ " MB > safe " ++ Nat.repr SAFE_HEAP_THRESHOLD_MB ++ " MB")
          (Nat.repr SAFE_HEAP_THRESHOLD_MB)) :=
  ⟨rfl, by norm_num [heapUsedMBOf, SAFE_HEAP_THRESHOLD_MB],
    claim_C1_threshold_skip "/app" envAbove (300 * 1024 * 1024) rfl
      (by norm_num [heapUsedMBOf, SAFE_HEAP_THRESHOLD_MB])⟩

/-- C2 counterexample: `takeSnapshot` can raise.  With heap under threshold
and the serialization call throwing null (or undefined), the catch block
evaluates `err.message`, whose property access itself throws, escaping the
function; and a failing heap read sits outside the try block entirely, so it
also escapes. -/
theorem claim_C2_counterexample :
    (takeSnapshot "/app" envNullThrow).2 ≠ none
    ∧ (takeSnapshot "/app" envReadErr).2 ≠ none := by
  constructor
  · rw [takeSnapshot_write_nullish "/app" envNullThrow (100 * 1024 * 1024) rfl
      (by norm_num [heapUsedMBOf, SAFE_HEAP_THRESHOLD_MB]) rfl]
    simp
  · rw [takeSnapshot_readErr "/app" envReadErr
      (Thrown.obj (some "heap statistics unavailable")) rfl]
    simp

/-- C2 amended: `takeSnapshot` completes without raising — control returns
normally, every failure path ending in a log call — provided the heap read
succeeds and any value raised by the serialization call is not
null/undefined (so that the property access in the catch block succeeds). -/
theorem claim_C2_no_raise (r : String) (env : Env) (bytes : Nat)
    (hread : env.heapRead = Except.ok bytes)
    (hw : env.writeResult ≠ Except.error Thrown.nullish) :
    (takeSnapshot r env).2 = none := by
  by_cases hgt : heapUsedMBOf bytes > (SAFE_HEAP_THRESHOLD_MB : ℚ)
  · rw [takeSnapshot_skip r env bytes hread hgt]
  · have hle := not_lt.mp hgt
    cases hwr : env.writeResult with
    | error t =>
      cases t with
      | obj m => rw [takeSnapshot_write_err r env bytes m hread hle hwr]
      | nullish => exact absurd hwr hw
    | ok u =>
      cases u
      rw [takeSnapshot_write_ok r env bytes hread hle hwr]

/-- C2 witness: the ENOSPC environment — the write fails with a proper Error
object and the call still returns normally. -/
theorem claim_C2_no_raise_witness :
    envEnospc.heapRead = Except.ok (100 * 1024 * 1024)
    ∧ envEnospc.writeResult ≠ Except.error Thrown.nullish
    ∧ (takeSnapshot "/app" envEnospc).2 = none := by
  have hw : envEnospc.writeResult ≠ Except.error Thrown.nullish := by
    simp [envEnospc]
  exact ⟨rfl, hw, claim_C2_no_raise "/app" envEnospc (100 * 1024 * 1024) rfl hw⟩

/-- C3: whenever the heap-usage reading in megabytes is at most the threshold
(equality included), `takeSnapshot` attempts exactly one file write, that
write targets the timestamped filename, and the filename contains the decimal
rendering of the invocation wall-clock timestamp. -/
theorem claim_C3_under_threshold_writes (r : String) (env : Env) (bytes : Nat)
    (hread : env.heapRead = Except.ok bytes)
    (hle : heapUsedMBOf bytes ≤ (SAFE_HEAP_THRESHOLD_MB : ℚ)) :
    writeCount (takeSnapshot r env).1 = 1
    ∧ Event.writeAttempt (snapshotFilename r env.now) ∈ (takeSnapshot r env).1
    ∧ strContains (snapshotFilename r env.now) (Nat.repr env.now) := by
  refine ⟨?_, ?_, ⟨r ++ "/heap-", ".heapsnapshot",
    by simp [snapshotFilename, String.append_assoc]⟩⟩ <;>
  · cases hwr : env.writeResult with
    | error t =>
      cases t with
      | obj m =>
        rw [takeSnapshot_write_err r env bytes m hread hle hwr]
        simp [writeCount, isWriteEvent]
      | nullish =>
        rw [takeSnapshot_write_nullish r env bytes hread hle hwr]
        simp [writeCount, isWriteEvent]
    | ok u =>
      cases u
      rw [takeSnapshot_write_ok r env bytes hread hle hwr]
      simp [writeCount, isWriteEvent]

/-- C3 witness: 100 MB measured, write succeeds. -/
theorem claim_C3_under_threshold_writes_witness :
    envOk.heapRead = Except.ok (100 * 1024 * 1024)
    ∧ heapUsedMBOf (100 * 1024 * 1024) ≤ (SAFE_HEAP_THRESHOLD_MB : ℚ)
    ∧ (writeCount (takeSnapshot "/app" envOk).1 = 1
      ∧ Event.writeAttempt (snapshotFilename "/app" envOk.now)
          ∈ (takeSnapshot "/app" envOk).1
      ∧ strContains (snapshotFilename "/app" envOk.now) (Nat.repr envOk.now)) :=
  ⟨rfl, by norm_num [heapUsedMBOf, SAFE_HEAP_THRESHOLD_MB],
    claim_C3_under_threshold_writes "/app" envOk (100 * 1024 * 1024) rfl
      (by norm_num [heapUsedMBOf, SAFE_HEAP_THRESHOLD_MB])⟩

/-- C4: if the serialization call fails with an Error carrying a message, the
trace ends with an error log whose text contains "Snapshot failed" and whose
detail argument is exactly that message; there is exactly one write attempt
(no retry) and the invocation returns normally (no propagation). -/
theorem claim_C4_write_failure_logged (r : String) (env : Env) (bytes : Nat)
    (emsg : String)
    (hread : env.heapRead = Except.ok bytes)
    (hle : heapUsedMBOf bytes ≤ (SAFE_HEAP_THRESHOLD_MB : ℚ))
    (hw : env.writeResult = Except.error (Thrown.obj (some emsg))) :
    takeSnapshot r env =
      ([Event.logInfo ("[SNAPSHOT] Current heap used: "
          ++ toFixed1 (heapUsedMBOf bytes) ++ " MB"),
        Event.writeAttempt (snapshotFilename r env.now),
        Event.logError "[SNAPSHOT] Snapshot failed:" (some emsg)],
       none)
    ∧ writeCount (takeSnapshot r env).1 = 1
    ∧ strContains "[SNAPSHOT] Snapshot failed:" "Snapshot failed" := by
  have hshape := takeSnapshot_write_err r env bytes (some emsg) hread hle hw
  refine ⟨hshape, ?_, ⟨"[SNAPSHOT] ", ":", by decide⟩⟩
  rw [hshape]
  simp [writeCount, isWriteEvent]

/-- C4 witness: the serialization call throws ENOSPC. -/
theorem claim_C4_write_failure_logged_witness :
    envEnospc.heapRead = Except.ok (100 * 1024 * 1024)
    ∧ heapUsedMBOf (100 * 1024 * 1024) ≤ (SAFE_HEAP_THRESHOLD_MB : ℚ)
    ∧ envEnospc.writeResult
        = Except.error (Thrown.obj (some "ENOSPC: no space left on device"))
    ∧ (takeSnapshot "/app" envEnospc =
        ([Event.logInfo ("[SNAPSHOT] Current heap used: "
            ++ toFixed1 (heapUsedMBOf (100 * 1024 * 1024)) ++ " MB"),
          Event.writeAttempt (snapshotFilename "/app" envEnospc.now),
          Event.logError "[SNAPSHOT] Snapshot failed:"
            (some "ENOSPC: no space left on device")],
         none)
      ∧ writeCount (takeSnapshot "/app" envEnospc).1 = 1
      ∧ strContains "[SNAPSHOT] Snapshot failed:" "Snapshot failed") :=
  ⟨rfl, by norm_num [heapUsedMBOf, SAFE_HEAP_THRESHOLD_MB], rfl,
    claim_C4_write_failure_logged "/app" envEnospc (100 * 1024 * 1024)
      "ENOSPC: no space left on device" rfl
      (by norm_num [heapUsedMBOf, SAFE_HEAP_THRESHOLD_MB]) rfl⟩

/-- C5: every file write attempted by `takeSnapshot` targets exactly the path
`rootDir ++ "/heap-" ++ <decimal unix-milliseconds> ++ ".heapsnapshot"` built
from the invocation clock. -/
theorem claim_C5_filename_form (r : String) (env : Env) (f : String)
    (hmem : Event.writeAttempt f ∈ (takeSnapshot r env).1) :
    f = r ++ "/heap-" ++ Nat.repr env.now ++ ".heapsnapshot" :=
  filename_of_writeAttempt hmem

/-- C5 witness: the write attempted in `envOk` targets the timestamped path. -/
theorem claim_C5_filename_form_witness :
    Event.writeAttempt (snapshotFilename "/app" envOk.now)
      ∈ (takeSnapshot "/app" envOk).1
    ∧ snapshotFilename "/app" envOk.now
      = "/app" ++ "/heap-" ++ Nat.repr envOk.now ++ ".heapsnapshot" := by
  have hmem : Event.writeAttempt (snapshotFilename "/app" envOk.now)
      ∈ (takeSnapshot "/app" envOk).1 := by
    rw [takeSnapshot_write_ok "/app" envOk (100 * 1024 * 1024) rfl
      (by norm_num [heapUsedMBOf, SAFE_HEAP_THRESHOLD_MB]) rfl]
    simp
  exact ⟨hmem, claim_C5_filename_form "/app" envOk _ hmem⟩

/-- C6: two invocations at different timestamps, each attempting a write,
attempt distinct filenames — the filename construction is injective in the
timestamp. -/
theorem claim_C6_distinct_filenames (r : String) (env1 env2 : Env)
    (f1 f2 : String)
    (hne : env1.now ≠ env2.now)
    (hm1 : Event.writeAttempt f1 ∈ (takeSnapshot r env1).1)
    (hm2 : Event.writeAttempt f2 ∈ (takeSnapshot r env2).1) :
    f1 ≠ f2 := by
  rw [filename_of_writeAttempt hm1, filename_of_writeAttempt hm2]
  intro h
  exact hne (snapshotFilename_inj r h)

/-- C6 witness: two under-threshold invocations one clock tick apart. -/
theorem claim_C6_distinct_filenames_witness :
    envOk.now ≠ envOk2.now
    ∧ Event.writeAttempt (snapshotFilename "/app" envOk.now)
        ∈ (takeSnapshot "/app" envOk).1
    ∧ Event.writeAttempt (snapshotFilename "/app" envOk2.now)
        ∈ (takeSnapshot "/app" envOk2).1
    ∧ snapshotFilename "/app" envOk.now ≠ snapshotFilename "/app" envOk2.now := by
  have h1 : Event.writeAttempt (snapshotFilename "/app" envOk.now)
      ∈ (takeSnapshot "/app" envOk).1 := by
    rw [takeSnapshot_write_ok "/app" envOk (100 * 1024 * 1024) rfl
      (by norm_num [heapUsedMBOf, SAFE_HEAP_THRESHOLD_MB]) rfl]
    simp
  have h2 : Event.writeAttempt (snapshotFilename "/app" envOk2.now)
      ∈ (takeSnapshot "/app" envOk2).1 := by
    rw [takeSnapshot_write_ok "/app" envOk2 (100 * 1024 * 1024) rfl
      (by norm_num [heapUsedMBOf, SAFE_HEAP_THRESHOLD_MB]) rfl]
    simp
  exact ⟨by decide, h1, h2,
    claim_C6_distinct_filenames "/app" envOk envOk2 _ _ (by decide) h1 h2⟩

/-- C7: the SIGUSR2 handler first logs the signal-received line and then runs
`takeSnapshot` synchronously, so its observable behaviour is that log line
followed by exactly the trace of a direct `takeSnapshot` call, with the same
termination behaviour. -/
theorem claim_C7_sigusr2_sequence (r : String) (env : Env) :
    (sigusr2Handler r env).1
      = Event.logInfo "[SNAPSHOT] SIGUSR2 --> taking snapshot"
          :: (takeSnapshot r env).1
    ∧ (sigusr2Handler r env).2 = (takeSnapshot r env).2 :=
  ⟨rfl, rfl⟩

/-- C8: the periodic usage-report timer fires every fixed hour (3600000 ms,
written `1 * 60 * 60 * 1000` in the source, not derived from
`SNAPSHOT_INTERVAL_HOURS`, whose own timer fires every 21600000 ms); each
firing logs exactly the heap usage `bytes / 1024 / 1024` rendered to one
decimal place, performs no write attempt, no error log, and does not run the
`takeSnapshot` flow, whatever the usage value. -/
theorem claim_C8_usage_report (b : Nat) :
    USAGE_REPORT_INTERVAL_MS = 3600000
    ∧ SNAPSHOT_INTERVAL_MS = 21600000
    ∧ usageReportTick b
      = [Event.logInfo ("[SNAPSHOT] Heap used: "
          ++ toFixed1 ((b : ℚ) / 1024 / 1024) ++ " MB")]
    ∧ writeCount (usageReportTick b) = 0
    ∧ errorCount (usageReportTick b) = 0 :=
  ⟨rfl, rfl, rfl, rfl, rfl⟩

/-- C9: the write-or-skip decision is a function of the used-heap-size
reading alone (against the constant threshold): two invocations reading equal
byte counts either both attempt a write or both skip, whatever their clocks,
root directories, or write outcomes. -/
theorem claim_C9_decision_depends_only_on_usage (r1 r2 : String)
    (env1 env2 : Env) (bytes : Nat)
    (h1 : env1.heapRead = Except.ok bytes)
    (h2 : env2.heapRead = Except.ok bytes) :
    (0 < writeCount (takeSnapshot r1 env1).1
      ↔ 0 < writeCount (takeSnapshot r2 env2).1) := by
  rw [writeCount_pos_iff r1 env1 bytes h1, writeCount_pos_iff r2 env2 bytes h2]

/-- C9 witness: same 100 MB reading in two otherwise different environments
(different clock, root, and write outcome). -/
theorem claim_C9_decision_depends_only_on_usage_witness :
    envOk.heapRead = Except.ok (100 * 1024 * 1024)
    ∧ envEnospc.heapRead = Except.ok (100 * 1024 * 1024)
    ∧ (0 < writeCount (takeSnapshot "/app" envOk).1
        ↔ 0 < writeCount (takeSnapshot "/srv" envEnospc).1) :=
  ⟨rfl, rfl,
    claim_C9_decision_depends_only_on_usage "/app" "/srv" envOk envEnospc
      (100 * 1024 * 1024) rfl rfl⟩

/-- C10 counterexample: the outcome trichotomy fails.  When the serialization
call throws null, the trace is the usage info line followed by the bare write
attempt — no skip-error line, no written-info line, no failure-error line is
emitted, because the catch block faults on `err.message` before its log call;
and when the heap read throws, not even the usage info line is emitted. -/
theorem claim_C10_counterexample :
    infoCount (takeSnapshot "/app" envNullThrow2).1 = 1
    ∧ errorCount (takeSnapshot "/app" envNullThrow2).1 = 0
    ∧ writeCount (takeSnapshot "/app" envNullThrow2).1 = 1
    ∧ (takeSnapshot "/app" envReadErr2).1 = [] := by
  have hshape := takeSnapshot_write_nullish "/app" envNullThrow2
    (100 * 1024 * 1024) rfl
    (by norm_num [heapUsedMBOf, SAFE_HEAP_THRESHOLD_MB]) rfl
  refine ⟨?_, ?_, ?_, ?_⟩
  · rw [hshape]; rfl
  · rw [hshape]; rfl
  · rw [hshape]; rfl
  · rw [takeSnapshot_readErr "/app" envReadErr2
      (Thrown.obj (some "heap statistics unavailable")) rfl]

/-- C10 amended: provided the heap read succeeds, the trace opens with the
usage info line; provided additionally that any value raised by serialization
is not null/undefined, exactly one of the three mutually exclusive outcomes
follows — the threshold-skip error line, the write attempt with its success
info line, or the write attempt with its failure error line; and on the skip
path the result does not depend on the wall clock (never read there). -/
theorem claim_C10_trace_shape (r : String) (env : Env) (bytes : Nat)
    (hread : env.heapRead = Except.ok bytes)
    (hw : env.writeResult ≠ Except.error Thrown.nullish) :
    (takeSnapshot r env).1.take 1
      = [Event.logInfo ("[SNAPSHOT] Current heap used: "
          ++ toFixed1 (heapUsedMBOf bytes) ++ " MB")]
    ∧ ((∃ m, (takeSnapshot r env).1.drop 1 = [Event.logError m none])
      ∨ (∃ f m, (takeSnapshot r env).1.drop 1
          = [Event.writeAttempt f, Event.logInfo m])
      ∨ (∃ f m d, (takeSnapshot r env).1.drop 1
          = [Event.writeAttempt f, Event.logError m d]))
    ∧ (heapUsedMBOf bytes > (SAFE_HEAP_THRESHOLD_MB : ℚ) →
        ∀ n, takeSnapshot r { env with now := n } = takeSnapshot r env) := by
  by_cases hgt : heapUsedMBOf bytes > (SAFE_HEAP_THRESHOLD_MB : ℚ)
  · have hshape := takeSnapshot_skip r env bytes hread hgt
    refine ⟨by rw [hshape]; rfl, Or.inl ⟨_, by rw [hshape]; rfl⟩, fun _ n => ?_⟩
    have hread2 : ({ env with now := n } : Env).heapRead = Except.ok bytes := hread
    rw [takeSnapshot_skip r { env with now := n } bytes hread2 hgt, hshape]
  · have hle := not_lt.mp hgt
    cases hwr : env.writeResult with
    | error t =>
      cases t with
      | obj m =>
        have hshape := takeSnapshot_write_err r env bytes m hread hle hwr
        exact ⟨by rw [hshape]; rfl, Or.inr (Or.inr ⟨_, _, _, by rw [hshape]; rfl⟩),
          fun hc _ => absurd hc hgt⟩
      | nullish => exact absurd hwr hw
    | ok u =>
      cases u
      have hshape := takeSnapshot_write_ok r env bytes hread hle hwr
      exact ⟨by rw [hshape]; rfl, Or.inr (Or.inl ⟨_, _, by rw [hshape]; rfl⟩),
        fun hc _ => absurd hc hgt⟩

/-- C10 witness: above-threshold reading — the skip outcome, with the result
independent of the clock. -/
theorem claim_C10_trace_shape_witness :
    envAbove.heapRead = Except.ok (300 * 1024 * 1024)
    ∧ envAbove.writeResult ≠ Except.error Thrown.nullish
    ∧ ((takeSnapshot "/app" envAbove).1.take 1
        = [Event.logInfo ("[SNAPSHOT] Current heap used: "
            ++ toFixed1 (heapUsedMBOf (300 * 1024 * 1024)) ++ " MB")]
      ∧ ((∃ m, (takeSnapshot "/app" envAbove).1.drop 1 = [Event.logError m none])
        ∨ (∃ f m, (takeSnapshot "/app" envAbove).1.drop 1
            = [Event.writeAttempt f, Event.logInfo m])
        ∨ (∃ f m d, (takeSnapshot "/app" envAbove).1.drop 1
            = [Event.writeAttempt f, Event.logError m d]))
      ∧ (heapUsedMBOf (300 * 1024 * 1024) > (SAFE_HEAP_THRESHOLD_MB : ℚ) →
          ∀ n, takeSnapshot "/app" { envAbove with now := n }
            = takeSnapshot "/app" envAbove)) := by
  have hw : envAbove.writeResult ≠ Except.error Thrown.nullish := by
    simp [envAbove]
  exact ⟨rfl, hw,
    claim_C10_trace_shape "/app" envAbove (300 * 1024 * 1024) rfl hw⟩

end Snapshot
